import Mathlib

/-!
Shallow embedding of the data-preparation and customer-segmentation pipeline
of dashboard/dashboard.py (a streamlit/pandas dashboard), together with
theorems settling the frozen claims about it.

Conventions of the embedding:
* a pandas nullable value (NaN / NaT) is an Option; pandas comparisons
  against NaN / NaT evaluate to False, arithmetic on them propagates nulls,
  aggregation sums skip them, and groupby drops null keys — each definition
  below records which of these rules it uses;
* timestamps are modelled at day granularity as integers (none of the claims
  under verification depends on sub-day precision);
* float columns are modelled as rationals;
* pandas groupby sorts its group keys ascending (sort=True, the default)
  and drops null keys: the sorted distinct keys of a column are modelled by
  sortedKeys below.
-/

namespace EcommerceDashboard

/-- Insert a key into a sorted duplicate-free list, keeping it sorted and
duplicate-free. -/
def insertKey {α : Type} [LinearOrder α] (x : α) : List α → List α
  | [] => [x]
  | y :: ys => if x < y then x :: y :: ys else if x = y then y :: ys else y :: insertKey x ys

/-- The distinct values of a column in ascending order: the group keys that a
pandas groupby (sort=True, the default) produces, and likewise the result of
sorting the distinct values of a column. -/
def sortedKeys {α : Type} [LinearOrder α] (l : List α) : List α :=
  l.foldr insertKey []

/-! ## Customer segmentation (dashboard.py, customer_segment, lines 400-414) -/

/-- The five-branch segmentation rule of dashboard.py lines 400-414, a pure
function of the three customer metrics: days since last purchase (an integer
of whole days), number of purchases (a row count) and total spending (a
float, modelled as a rational). -/
def customer_segment (days : ℤ) (purchases : ℕ) (spending : ℚ) : String :=
  if days ≤ 30 ∧ purchases ≥ 5 ∧ spending > 500 then ("VIP Customers")
  else if days ≤ 60 ∧ purchases ≥ 3 then ("Loyal Customers")
  else if days ≤ 90 ∧ purchases = 1 then ("New Customers")
  else if days > 90 ∧ days ≤ 180 then ("At Risk")
  else ("Inactive Customers")

/-- The ordered decision list stated by the claim (written from the claim's
words, for comparison with customer_segment): the four guarded rules in their
fixed order, each a boolean predicate on the metrics triple paired with its
label. -/
def specSegmentRules : List (((ℤ × ℕ × ℚ) → Bool) × String) :=
  [(fun m => decide (m.1 ≤ 30 ∧ m.2.1 ≥ 5 ∧ m.2.2 > 500), "VIP Customers"),
   (fun m => decide (m.1 ≤ 60 ∧ m.2.1 ≥ 3), "Loyal Customers"),
   (fun m => decide (m.1 ≤ 90 ∧ m.2.1 = 1), "New Customers"),
   (fun m => decide (m.1 > 90 ∧ m.1 ≤ 180), "At Risk")]

/-- First-match evaluation of the decision list; when no rule matches, the
catch-all label of the claim applies. -/
def specFirstMatch (rules : List (((ℤ × ℕ × ℚ) → Bool) × String)) (m : ℤ × ℕ × ℚ) : String :=
  match rules with
  | [] => "Inactive Customers"
  | (p, label) :: rest => if p m then label else specFirstMatch rest m

/-! ## Derived field total_value (dashboard.py lines 367 and 384) -/

/-- The derived column of lines 367 and 384, total_value = price +
freight_value: pandas addition of two float columns propagates NaN, so the
sum is null as soon as one operand is. -/
def total_value (price freight_value : Option ℚ) : Option ℚ :=
  match price, freight_value with
  | some p, some f => some (p + f)
  | _, _ => none

/-! ## Year-over-year monthly order counts (dashboard.py lines 332-359)

A record is represented by its (year, month) key, year an integer and month
in 1..12, both derived from a valid order_purchase_timestamp (rows whose
timestamp is NaT get NaN year/month keys and are dropped by the groupby at
line 336, so they do not reach this pipeline). -/

/-- The order count of one (year, month) cell: the size of the groupby group
at line 336, or 0 when the lookup at lines 347-350 finds no row. -/
def countYM (recs : List (ℤ × ℕ)) (y : ℤ) (m : ℕ) : ℕ :=
  (recs.filter (fun r => decide (r.1 = y ∧ r.2 = m))).length

/-- The distinct years of the data in ascending order: line 343 takes the
unique years of the groupby result, whose keys are already sorted. -/
def yearsPresent (recs : List (ℤ × ℕ)) : List ℤ :=
  sortedKeys (recs.map Prod.fst)

/-- The backfilled year-over-year table built by the loop at lines 344-359:
for every year present in the data, one row per calendar month 1..12 carrying
that month's order count (0 when the month has no orders), sorted by (year,
month). -/
def complete_data (recs : List (ℤ × ℕ)) : List (ℤ × ℕ × ℕ) :=
  (yearsPresent recs).flatMap
    (fun y => (List.range 12).map (fun i => (y, i + 1, countYM recs y (i + 1))))

/-- Linear index of a calendar month, used only to state the claim's span
contract. -/
def specMonthIndex (r : ℤ × ℕ) : ℤ := 12 * r.1 + (r.2 : ℤ)

/-- The number of calendar months in the inclusive span from the earliest to
the latest month of the data (written from the claim's words, for comparison
with the row count of complete_data). -/
def specMonthSpan (recs : List (ℤ × ℕ)) : ℤ :=
  match (recs.map specMonthIndex).min?, (recs.map specMonthIndex).max? with
  | some lo, some hi => hi - lo + 1
  | _, _ => 0

/-! ## Mean delivery time by order hour (dashboard.py lines 544-548)

A record is represented by its order hour (derived from a valid
order_purchase_timestamp) and its nullable delivery time in days. -/

/-- The hours that occur in the data, ascending: the group keys of the plain
groupby at line 548 — pandas emits a group only for key values that occur. -/
def hoursPresent (recs : List (ℕ × Option ℚ)) : List ℕ :=
  sortedKeys (recs.map Prod.fst)

/-- The non-null delivery times of the records with the given order hour. -/
def deliveryValues (recs : List (ℕ × Option ℚ)) (h : ℕ) : List ℚ :=
  (recs.filter (fun r => decide (r.1 = h))).filterMap Prod.snd

/-- The pandas mean of a group's delivery times: NaN values are skipped, and
a group whose values are all NaN has mean NaN (modelled as none). -/
def meanDelivery (recs : List (ℕ × Option ℚ)) (h : ℕ) : Option ℚ :=
  if (deliveryValues recs h).length = 0 then none
  else some ((deliveryValues recs h).sum / ((deliveryValues recs h).length : ℚ))

/-- The hourly mean-delivery-time table of line 548: one row per hour value
occurring in the data, ascending, with that group's mean. -/
def hourly_delivery (recs : List (ℕ × Option ℚ)) : List (ℕ × Option ℚ) :=
  (hoursPresent recs).map (fun h => (h, meanDelivery recs h))

/-! ## On-time flag and on-time-vs-late review counts (dashboard.py lines 609-614) -/

/-- One row of the review table of tab 5: the two delivery dates (nullable)
and the review score (nullable). -/
structure ReviewRec where
  delivered : Option ℤ
  estimated : Option ℤ
  review_score : Option ℕ
deriving DecidableEq

/-- Line 609: is_on_time = order_delivered_customer_date <=
order_estimated_delivery_date. A pandas datetime comparison in which either
operand is NaT evaluates to False (never to null and never to an error), so
the column is plain booleans and a record with a missing date gets False. -/
def is_on_time (delivered estimated : Option ℤ) : Bool :=
  match delivered, estimated with
  | some d, some e => decide (d ≤ e)
  | _, _ => false

/-- One cell of the two-level groupby at line 613, size of the group
(is_on_time = onTime, review_score = score); rows whose review_score is null
are dropped by the groupby, rows with a null date sit in the False

(labelled Late Delivery at line 614) group. -/
def on_time_reviews_count (recs : List ReviewRec) (onTime : Bool) (score : ℕ) : ℕ :=
  (recs.filter (fun r =>
    decide (is_on_time r.delivered r.estimated = onTime) &&
    decide (r.review_score = some score))).length

/-! ## Day-of-week order counts (dashboard.py lines 305-309)

A record is represented by the day of week of its purchase timestamp as
Fin 7 (0 = Monday .. 6 = Sunday), or none when the timestamp is NaT (a NaT
timestamp yields a null day name, which value_counts drops). -/

/-- Line 308: the fixed reindexing order Monday..Sunday. -/
def days_order : List String :=
  ["Monday", "Tuesday", "Wednesday", "Thursday", "Friday", "Saturday", "Sunday"]

/-- The pandas day name of a day code. -/
def dayName (d : Fin 7) : String :=
  match d.val with
  | 0 => "Monday"
  | 1 => "Tuesday"
  | 2 => "Wednesday"
  | 3 => "Thursday"
  | 4 => "Friday"
  | 5 => "Saturday"
  | _ => "Sunday"

/-- The seven day codes in the fixed Monday..Sunday order. -/
def daysFin : List (Fin 7) := [0, 1, 2, 3, 4, 5, 6]

/-- The number of records falling on a given day of week (value_counts of
line 307, which drops nulls). -/
def countDay (recs : List (Option (Fin 7))) (d : Fin 7) : ℕ :=
  (recs.filter (fun x => decide (x = some d))).length

/-- Lines 307-309: value_counts over the day names, reindexed to the fixed
order Monday..Sunday; a day absent from the value_counts index (count 0)
receives NaN from reindex, modelled as none. -/
def daily_orders (recs : List (Option (Fin 7))) : List (String × Option ℕ) :=
  daysFin.map (fun d =>
    (dayName d, if countDay recs d = 0 then none else some (countDay recs d)))

/-! ## Customer metrics (dashboard.py lines 386-397) -/

/-- One order-line row as the customer-metrics groupby of lines 390-394 sees
it: customer and order identifiers (opaque non-null strings), the purchase
timestamp in days, and the two nullable price components. -/
structure OrderRec where
  customer_id : String
  order_id : String
  purchase_ts : ℤ
  price : Option ℚ
  freight_value : Option ℚ
deriving DecidableEq

/-- The rows of one customer's group. -/
def custRecs (recs : List OrderRec) (c : String) : List OrderRec :=
  recs.filter (fun r => decide (r.customer_id = c))

/-- Line 391: (max_date - x.max()).days, the days between the dataset's
latest purchase and this customer's latest purchase. The getD defaults are
never reached for a customer that has at least one row. -/
def days_since_last (recs : List OrderRec) (c : String) : ℤ :=
  ((recs.map (fun r => r.purchase_ts)).max?.getD 0) -
    (((custRecs recs c).map (fun r => r.purchase_ts)).max?.getD 0)

/-- Line 392: agg count of order_id — the number of non-null order_id values
in the customer's group, which is the group's row count since order_id is an
identifier column with no nulls. -/
def number_of_purchases (recs : List OrderRec) (c : String) : ℕ :=
  (custRecs recs c).length

/-- Line 393: agg sum of total_value — a pandas sum skips NaN values and
returns 0 for a group whose values are all NaN. -/
def total_spending (recs : List OrderRec) (c : String) : ℚ :=
  ((custRecs recs c).filterMap (fun r => total_value r.price r.freight_value)).sum

/-- The number of distinct values of a list: each value is counted at its
last occurrence. -/
def uniqueCount {α : Type} [DecidableEq α] : List α → ℕ
  | [] => 0
  | x :: xs => (if x ∈ xs then 0 else 1) + uniqueCount xs

/-- The number of distinct order_id values in a customer's group (what
number_of_purchases would be if it counted orders instead of rows; stated
for comparison only, no line of the source computes it). -/
def distinct_order_count (recs : List OrderRec) (c : String) : ℕ :=
  uniqueCount ((custRecs recs c).map (fun r => r.order_id))

/-- One row of the customer_metrics table of lines 390-397. -/
structure MetricsRow where
  customer_id : String
  days_since_last_purchase : ℤ
  number_of_purchases : ℕ
  total_spending : ℚ
deriving DecidableEq

/-- The customer_metrics table: one row per distinct customer_id (groupby
keys, sorted ascending) with the three aggregated metrics. -/
def customer_metrics (recs : List OrderRec) : List MetricsRow :=
  (sortedKeys (recs.map (fun r => r.customer_id))).map (fun c =>
    { customer_id := c
      days_since_last_purchase := days_since_last recs c
      number_of_purchases := number_of_purchases recs c
      total_spending := total_spending recs c })

/-- A two-row dataset in which one customer placed one order with two order
lines (two rows sharing one order_id). -/
def multiLineOrder : List OrderRec :=
  [⟨"c", "o1", 0, none, none⟩, ⟨"c", "o1", 0, none, none⟩]

/-- Line 416: the segment column, customer_segment applied row-wise to the
three metrics of each customer_metrics row. -/
def segment_col (recs : List OrderRec) : List (String × String) :=
  (customer_metrics recs).map (fun row =>
    (row.customer_id,
      customer_segment row.days_since_last_purchase row.number_of_purchases row.total_spending))

/-! ## Category filter round-trip (dashboard.py lines 76-97) -/

/-- astype(str) applied to one cell of the raw category column: a NaN cell
renders as the string nan. -/
def strCast (v : Option String) : String :=
  match v with
  | some s => s
  | none => "nan"

/-- fillna applied to one cell at line 80: a NaN cell becomes Unknown. -/
def fillUnknown (v : Option String) : String :=
  match v with
  | some s => s
  | none => "Unknown"

/-- The replace of underscores by spaces at line 86. -/
def underscoreToSpace (s : String) : String :=
  String.mk (s.data.map (fun c => if c = '_' then ' ' else c))

/-- Python str.title over a character list: a letter is uppercased when the
preceding character is not a letter and lowercased otherwise; the flag
carries whether the previous character was a letter. -/
def titleChars : Bool → List Char → List Char
  | _, [] => []
  | prevAlpha, c :: cs => (if prevAlpha then c.toLower else c.toUpper) :: titleChars c.isAlpha cs

/-- Python str.title of a string. -/
def titleStr (s : String) : String :=
  String.mk (titleChars false s.data)

/-- Line 86: the display name of a category — underscores to spaces, then
title case. -/
def displayName (s : String) : String :=
  titleStr (underscoreToSpace s)

/-- Line 80 then line 83: the option values offered in the sidebar — the
distinct fillna values of the column, sorted. -/
def uniqueCats (col : List (Option String)) : List String :=
  sortedKeys (col.map fillUnknown)

/-- Line 96: the selected display names converted back to original names —
the sorted option values whose display name was selected. -/
def originalsFor (col : List (Option String)) (selected : List String) : List String :=
  (uniqueCats col).filter (fun c => decide (displayName c ∈ selected))

/-- Line 97: the category membership test applied to one record — the raw
cell cast with astype(str), tested with isin against the original names. -/
def passCategory (originals : List String) (v : Option String) : Bool :=
  decide (strCast v ∈ originals)

/-! ## Sidebar filter pipeline (dashboard.py lines 54-165) -/

/-- One record as the sidebar filters see it: the date part of the purchase
timestamp (in days, none for NaT), the raw category and state cells, the
coerced price and the coerced review score. -/
structure FilterRec where
  purchase_date : Option ℤ
  category : Option String
  state : Option String
  price : Option ℚ
  review_score : Option ℕ
deriving DecidableEq

/-- The sidebar configuration: date range, selected category and state
display names, price range and review bucket. -/
structure FilterConfig where
  date_lo : ℤ
  date_hi : ℤ
  categories : List String
  states : List String
  price_lo : ℚ
  price_hi : ℚ
  review : String

/-- Line 59: the minimum non-null purchase date of the data (getD unreached
when the column has a non-null value). -/
def minDate (data : List FilterRec) : ℤ :=
  ((data.filterMap (fun r => r.purchase_date)).min?).getD 0

/-- Line 60: the maximum non-null purchase date of the data. -/
def maxDate (data : List FilterRec) : ℤ :=
  ((data.filterMap (fun r => r.purchase_date)).max?).getD 0

/-- Line 131: the minimum non-null price of the data. -/
def minPrice (data : List FilterRec) : ℚ :=
  ((data.filterMap (fun r => r.price)).min?).getD 0

/-- Line 132: the maximum non-null price of the data. -/
def maxPrice (data : List FilterRec) : ℚ :=
  ((data.filterMap (fun r => r.price)).max?).getD 0

/-- Lines 69-70: the date-range test of one record. A record whose purchase
timestamp is NaT compares as False on both bounds and is dropped. -/
def passDate (lo hi : ℤ) (r : FilterRec) : Bool :=
  match r.purchase_date with
  | some d => decide (lo ≤ d) && decide (d ≤ hi)
  | none => false

/-- Lines 141-142: the price-range test of one record. A record whose price
is NaN compares as False on both bounds and is dropped. -/
def passPrice (lo hi : ℚ) (r : FilterRec) : Bool :=
  match r.price with
  | some p => decide (lo ≤ p) && decide (p ≤ hi)
  | none => false

/-- The filter pipeline of lines 54-165 applied in source order: date range,
then category (skipped when no category is selected), then state (skipped
when no state is selected), then price range, then the review bucket
(skipped for All Scores). -/
def filtered_df (data : List FilterRec) (cfg : FilterConfig) : List FilterRec :=
  let s1 := data.filter (fun r => passDate cfg.date_lo cfg.date_hi r)
  let s2 := if cfg.categories = [] then s1 else
    s1.filter (fun r =>
      passCategory (originalsFor (data.map (fun x => x.category)) cfg.categories) r.category)
  let s3 := if cfg.states = [] then s2 else
    s2.filter (fun r =>
      passCategory (originalsFor (data.map (fun x => x.state)) cfg.states) r.state)
  let s4 := s3.filter (fun r => passPrice cfg.price_lo cfg.price_hi r)
  if cfg.review = "1-2 (Negative)" then
    s4.filter (fun r => decide (r.review_score = some 1) || decide (r.review_score = some 2))
  else if cfg.review = "3 (Neutral)" then
    s4.filter (fun r => decide (r.review_score = some 3))
  else if cfg.review = "4-5 (Positive)" then
    s4.filter (fun r => decide (r.review_score = some 4) || decide (r.review_score = some 5))
  else s4

/-- The default (empty) configuration the sidebar starts with: the full data
span as date range, no category or state selection, the full price range and
the All Scores bucket. -/
def defaultConfig (data : List FilterRec) : FilterConfig :=
  { date_lo := minDate data
    date_hi := maxDate data
    categories := []
    states := []
    price_lo := minPrice data
    price_hi := maxPrice data
    review := "All Scores" }

/-! ## Helper lemmas -/

theorem mem_insertKey {α : Type} [LinearOrder α] (x a : α) (l : List α) :
    a ∈ insertKey x l ↔ a = x ∨ a ∈ l := by
  induction l with
  | nil => simp [insertKey]
  | cons y ys ih =>
    rw [insertKey]
    split_ifs with h1 h2
    · simp
    · subst h2
      simp only [List.mem_cons]
      tauto
    · simp only [List.mem_cons, ih]
      tauto

theorem sorted_insertKey {α : Type} [LinearOrder α] (x : α) (l : List α)
    (h : l.Pairwise (· < ·)) : (insertKey x l).Pairwise (· < ·) := by
  induction l with
  | nil => simp [insertKey]
  | cons y ys ih =>
    rcases List.pairwise_cons.mp h with ⟨hy, hys⟩
    by_cases h1 : x < y
    · rw [insertKey, if_pos h1]
      refine List.pairwise_cons.mpr ⟨?_, h⟩
      intro b hb
      rcases List.mem_cons.mp hb with rfl | hb
      · exact h1
      · exact lt_trans h1 (hy b hb)
    · by_cases h2 : x = y
      · rw [insertKey, if_neg h1, if_pos h2]
        exact h
      · rw [insertKey, if_neg h1, if_neg h2]
        refine List.pairwise_cons.mpr ⟨?_, ih hys⟩
        intro b hb
        rcases (mem_insertKey x b ys).mp hb with rfl | hb
        · exact lt_of_le_of_ne (not_lt.mp h1) (fun hxy => h2 hxy.symm)
        · exact hy b hb

theorem mem_sortedKeys {α : Type} [LinearOrder α] (a : α) (l : List α) :
    a ∈ sortedKeys l ↔ a ∈ l := by
  induction l with
  | nil => simp [sortedKeys]
  | cons y ys ih =>
    show a ∈ insertKey y (sortedKeys ys) ↔ _
    rw [mem_insertKey, ih]
    simp

theorem sorted_sortedKeys {α : Type} [LinearOrder α] (l : List α) :
    (sortedKeys l).Pairwise (· < ·) := by
  induction l with
  | nil => exact List.Pairwise.nil
  | cons y ys ih => exact sorted_insertKey y (sortedKeys ys) ih

theorem nodup_sortedKeys {α : Type} [LinearOrder α] (l : List α) :
    (sortedKeys l).Nodup :=
  (sorted_sortedKeys l).imp ne_of_lt

theorem length_sortedKeys_eq_card {α : Type} [LinearOrder α] [DecidableEq α] (l : List α) :
    (sortedKeys l).length = l.toFinset.card := by
  have hf : (sortedKeys l).toFinset = l.toFinset := by
    ext a
    simp [List.mem_toFinset, mem_sortedKeys]
  calc (sortedKeys l).length = (sortedKeys l).toFinset.card :=
        (List.toFinset_card_of_nodup (nodup_sortedKeys l)).symm
    _ = l.toFinset.card := by rw [hf]

theorem foldl_min_le_init {α : Type} [LinearOrder α] (xs : List α) (x : α) :
    xs.foldl min x ≤ x := by
  induction xs generalizing x with
  | nil => exact le_refl x
  | cons y ys ih => exact le_trans (ih (min x y)) (min_le_left x y)

theorem foldl_min_le_mem {α : Type} [LinearOrder α] (xs : List α) (x d : α)
    (h : d ∈ xs) : xs.foldl min x ≤ d := by
  induction xs generalizing x with
  | nil => cases h
  | cons y ys ih =>
    rcases List.mem_cons.mp h with rfl | h
    · exact le_trans (foldl_min_le_init ys (min x d)) (min_le_right x d)
    · exact ih (min x y) h

theorem le_foldl_max_init {α : Type} [LinearOrder α] (xs : List α) (x : α) :
    x ≤ xs.foldl max x := by
  induction xs generalizing x with
  | nil => exact le_refl x
  | cons y ys ih => exact le_trans (le_max_left x y) (ih (max x y))

theorem le_foldl_max_mem {α : Type} [LinearOrder α] (xs : List α) (x d : α)
    (h : d ∈ xs) : d ≤ xs.foldl max x := by
  induction xs generalizing x with
  | nil => cases h
  | cons y ys ih =>
    rcases List.mem_cons.mp h with rfl | h
    · exact le_trans (le_max_right x d) (le_foldl_max_init ys (max x d))
    · exact ih (max x y) h

theorem min?_getD_le {α : Type} [LinearOrder α] (l : List α) (d a : α)
    (h : d ∈ l) : l.min?.getD a ≤ d := by
  cases l with
  | nil => cases h
  | cons x xs =>
    show (xs.foldl min x) ≤ d
    rcases List.mem_cons.mp h with rfl | h
    · exact foldl_min_le_init xs d
    · exact foldl_min_le_mem xs x d h

theorem le_max?_getD {α : Type} [LinearOrder α] (l : List α) (d a : α)
    (h : d ∈ l) : d ≤ l.max?.getD a := by
  cases l with
  | nil => cases h
  | cons x xs =>
    show d ≤ (xs.foldl max x)
    rcases List.mem_cons.mp h with rfl | h
    · exact le_foldl_max_init xs d
    · exact le_foldl_max_mem xs x d h

theorem countDay_cons (x : Option (Fin 7)) (recs : List (Option (Fin 7))) (d : Fin 7) :
    countDay (x :: recs) d = (if x = some d then 1 else 0) + countDay recs d := by
  simp only [countDay, List.filter_cons, decide_eq_true_eq]
  split_ifs with h
  · simp [Nat.add_comm]
  · simp

theorem getD_zero_ite (c : ℕ) : (if c = 0 then (none : Option ℕ) else some c).getD 0 = c := by
  split_ifs with h
  · simp [h]
  · simp

theorem sum_countDay (recs : List (Option (Fin 7))) :
    (daysFin.map (fun d => countDay recs d)).sum = (recs.filter (fun x => x.isSome)).length := by
  induction recs with
  | nil => rfl
  | cons x recs ih =>
    simp only [daysFin, List.map_cons, List.map_nil, List.sum_cons, List.sum_nil] at ih ⊢
    rw [countDay_cons, countDay_cons, countDay_cons, countDay_cons, countDay_cons,
      countDay_cons, countDay_cons, List.filter_cons]
    rcases x with _ | d
    · simp only [reduceCtorEq, if_false, Option.isSome_none, Bool.false_eq_true, if_false]
      omega
    · fin_cases d <;> simp <;> omega

/-! ## The claims -/

/-- C1: the segmentation function equals first-match evaluation of the
ordered decision list (VIP, Loyal, New, At Risk, catch-all Inactive), and it
takes the claimed values at the four boundary inputs (500.01 written as the
rational 50001/100). -/
theorem claim1_segment_first_match :
    (∀ (days : ℤ) (purchases : ℕ) (spending : ℚ),
        customer_segment days purchases spending =
          specFirstMatch specSegmentRules (days, purchases, spending)) ∧
    customer_segment 30 5 (50001 / 100) = "VIP Customers" ∧
    customer_segment 30 5 500 = "Loyal Customers" ∧
    customer_segment 91 1 0 = "At Risk" ∧
    customer_segment 181 10 10000 = "Inactive Customers" := by
  refine ⟨?_, ?_, ?_, ?_, ?_⟩
  · intro d p s
    rw [customer_segment]
    simp only [specFirstMatch, specSegmentRules, decide_eq_true_eq]
  · norm_num [customer_segment]
  · norm_num [customer_segment]
  · norm_num [customer_segment]
  · norm_num [customer_segment]

/-- C7: total_value is the sum of price and freight_value when both are
non-null and null when either is null. -/
theorem claim7_total_value_null_propagation :
    (∀ p f : ℚ, total_value (some p) (some f) = some (p + f)) ∧
    (∀ f : Option ℚ, total_value none f = none) ∧
    (∀ p : Option ℚ, total_value p none = none) := by
  refine ⟨fun p f => rfl, fun f => rfl, fun p => ?_⟩
  cases p <;> rfl

/-- C6: the day-of-week pipeline always outputs exactly 7 rows, labelled
Monday..Sunday in that fixed order, and the counts (a reindexed-away day
contributing 0) sum to the number of records with a valid purchase
timestamp. -/
theorem claim6_daily_orders_shape_and_sum :
    (∀ recs : List (Option (Fin 7)), (daily_orders recs).length = 7) ∧
    (∀ recs : List (Option (Fin 7)), (daily_orders recs).map Prod.fst = days_order) ∧
    (∀ recs : List (Option (Fin 7)),
        ((daily_orders recs).map (fun p => p.2.getD 0)).sum =
          (recs.filter (fun x => x.isSome)).length) := by
  refine ⟨fun recs => rfl, fun recs => rfl, fun recs => ?_⟩
  rw [daily_orders, List.map_map]
  simp only [Function.comp_def, getD_zero_ite]
  exact sum_countDay recs

theorem total_spending_zero_of_all_null (recs : List OrderRec) (c : String)
    (h : ∀ r ∈ custRecs recs c, total_value r.price r.freight_value = none) :
    total_spending recs c = 0 := by
  rw [total_spending, List.filterMap_eq_nil_iff.mpr h]
  rfl

/-- C8: in the customer_metrics table, number_of_purchases is the number of
order-line rows carrying the customer_id, and on a dataset where one
customer placed a single order with two lines it is 2 while the number of
distinct order_id values is 1. -/
theorem claim8_purchases_count_rows_not_orders :
    (∀ (recs : List OrderRec) (row : MetricsRow), row ∈ customer_metrics recs →
        row.number_of_purchases =
          (recs.filter (fun r => decide (r.customer_id = row.customer_id))).length) ∧
    number_of_purchases multiLineOrder ("c") = 2 ∧
    distinct_order_count multiLineOrder ("c") = 1 ∧
    1 < number_of_purchases multiLineOrder ("c") := by
  refine ⟨?_, by decide, by decide, by decide⟩
  intro recs row hrow
  rcases List.mem_map.mp hrow with ⟨c, hc, rfl⟩
  rfl

/-- C10: a record whose total_value is null contributes nothing to
total_spending; a customer all of whose rows have null total_value gets
total_spending 0 (the pandas sum of an all-NaN group is 0, not null); and
that customer's segment is computed from the literal spending value 0. -/
theorem claim10_null_spending_sums_to_zero :
    (∀ (r : OrderRec) (recs : List OrderRec) (c : String),
        total_value r.price r.freight_value = none →
        total_spending (r :: recs) c = total_spending recs c) ∧
    (∀ (recs : List OrderRec) (c : String),
        (∀ r ∈ custRecs recs c, total_value r.price r.freight_value = none) →
        total_spending recs c = 0) ∧
    (∀ (recs : List OrderRec) (c : String),
        c ∈ recs.map (fun r => r.customer_id) →
        (∀ r ∈ custRecs recs c, total_value r.price r.freight_value = none) →
        (c, customer_segment (days_since_last recs c) (number_of_purchases recs c) 0) ∈
          segment_col recs) := by
  refine ⟨?_, fun recs c h => total_spending_zero_of_all_null recs c h, ?_⟩
  · intro r recs c h
    rw [total_spending, total_spending, custRecs, custRecs, List.filter_cons]
    split_ifs with hc
    · simp [List.filterMap_cons, h]
    · rfl
  · intro recs c hc hnull
    have h0 := total_spending_zero_of_all_null recs c hnull
    have hm : c ∈ sortedKeys (recs.map (fun r => r.customer_id)) :=
      (mem_sortedKeys c _).mpr hc
    refine List.mem_map.mpr
      ⟨{ customer_id := c
         days_since_last_purchase := days_since_last recs c
         number_of_purchases := number_of_purchases recs c
         total_spending := total_spending recs c },
       List.mem_map.mpr ⟨c, hm, rfl⟩, ?_⟩
    simp [h0]

/-- C4 counterexample: a record with a missing delivered date and review
score 3 gets is_on_time False (not null) and is counted in the Late
Delivery (is_on_time = False) cell for score 3, where the claim says it
should be counted in neither row. -/
theorem claim4_counterexample_missing_date_counted_late :
    is_on_time none (some 5) = false ∧
    on_time_reviews_count [⟨none, some 5, some 3⟩] false 3 = 1 :=
  ⟨rfl, rfl⟩

/-- C4 amended: is_on_time is the date comparison when both dates are
present and False (not null) when either date is missing, and a record with
a missing date but a non-null review score is counted in the Late Delivery
row (the False group) and not in the On Time Delivery row. -/
theorem claim4_is_on_time_false_when_missing :
    (∀ d e : ℤ, is_on_time (some d) (some e) = decide (d ≤ e)) ∧
    (∀ e : Option ℤ, is_on_time none e = false) ∧
    (∀ d : Option ℤ, is_on_time d none = false) ∧
    (∀ (r : ReviewRec) (recs : List ReviewRec) (s : ℕ),
        r.review_score = some s →
        (r.delivered = none ∨ r.estimated = none) →
        on_time_reviews_count (r :: recs) false s = on_time_reviews_count recs false s + 1 ∧
        on_time_reviews_count (r :: recs) true s = on_time_reviews_count recs true s) := by
  refine ⟨fun d e => rfl, fun e => rfl, fun d => by cases d <;> rfl, ?_⟩
  rintro r recs s hs hmiss
  have hfalse : is_on_time r.delivered r.estimated = false := by
    rcases hmiss with h | h
    · rw [h]
      rfl
    · rw [h]
      cases r.delivered <;> rfl
  constructor
  · simp only [on_time_reviews_count, List.filter_cons, hfalse, hs]
    simp
  · simp only [on_time_reviews_count, List.filter_cons, hfalse, hs]
    simp

/-- C3 counterexample: on a dataset with one record at hour 10, the hourly
mean-delivery table has a single row, not one row for each of the 24 hours —
the plain groupby silently omits hours with zero records. -/
theorem claim3_counterexample_single_hour :
    (hourly_delivery [((10 : ℕ), some (2 : ℚ))]).length ≠ 24 := by
  decide

/-- C3 amended: the hourly table has exactly the hour values occurring in
the data (an hour with zero records is silently omitted), in ascending
order, each row carrying the pandas group mean; an hour that does occur but
whose delivery times are all null appears with a null mean. -/
theorem claim3_hourly_rows_are_present_hours :
    (∀ (recs : List (ℕ × Option ℚ)) (h : ℕ),
        h ∈ (hourly_delivery recs).map Prod.fst ↔ h ∈ recs.map Prod.fst) ∧
    (∀ recs : List (ℕ × Option ℚ),
        (hourly_delivery recs).Pairwise (fun a b => a.1 < b.1)) ∧
    (∀ (recs : List (ℕ × Option ℚ)) (h : ℕ) (v : Option ℚ),
        (h, v) ∈ hourly_delivery recs → v = meanDelivery recs h) ∧
    (∀ (recs : List (ℕ × Option ℚ)) (h : ℕ),
        h ∈ recs.map Prod.fst →
        (∀ p ∈ recs, p.1 = h → p.2 = (none : Option ℚ)) →
        (h, (none : Option ℚ)) ∈ hourly_delivery recs) := by
  refine ⟨?_, ?_, ?_, ?_⟩
  · intro recs h
    rw [hourly_delivery, List.map_map]
    simp only [Function.comp_def]
    rw [List.map_id']
    exact mem_sortedKeys h _
  · intro recs
    rw [hourly_delivery]
    exact List.pairwise_map.mpr (sorted_sortedKeys _)
  · intro recs h v hmem
    rcases List.mem_map.mp hmem with ⟨h2, hh2, heq⟩
    rcases Prod.mk.injEq .. ▸ heq with ⟨rfl, rfl⟩
    rfl
  · intro recs h hmem hnull
    have hvals : deliveryValues recs h = [] := by
      rw [deliveryValues]
      refine List.filterMap_eq_nil_iff.mpr ?_
      intro p hp
      rcases List.mem_filter.mp hp with ⟨hpr, hph⟩
      exact hnull p hpr (by simpa using hph)
    have hmean : meanDelivery recs h = none := by
      rw [meanDelivery, hvals]
      rfl
    refine List.mem_map.mpr ⟨h, (mem_sortedKeys h _).mpr hmem, ?_⟩
    rw [hmean]

/-- C9: with the Unknown option selected in the category filter, a record
whose raw category is null is excluded: the filter compares astype(str)
renderings, in which a null renders as nan, while the selection maps back to
the fillna value Unknown — so the membership test of a null record is always
False. The remaining parts record the mechanism: the option list built from
a column with a null does offer Unknown, Unknown displays unchanged, and a
null cell casts to the string nan. -/
theorem claim9_unknown_selection_excludes_null :
    (∀ col : List (Option String),
        passCategory (originalsFor col [("Unknown")]) none = false) ∧
    (∀ col : List (Option String), ("Unknown" : String) ∈ uniqueCats (none :: col)) ∧
    displayName ("Unknown") = "Unknown" ∧
    strCast none = "nan" := by
  refine ⟨?_, ?_, by decide, rfl⟩
  · intro col
    rw [passCategory]
    simp only [decide_eq_false_iff_not]
    intro hmem
    have h2 := (List.mem_filter.mp hmem).2
    have h3 : displayName ("nan") = "Unknown" := by
      simpa using h2
    exact absurd h3 (by decide)
  · intro col
    refine (mem_sortedKeys _ _).mpr ?_
    exact List.mem_map.mpr ⟨none, List.mem_cons_self none col, rfl⟩

theorem length_complete_data (recs : List (ℤ × ℕ)) :
    (complete_data recs).length = 12 * (recs.map Prod.fst).toFinset.card := by
  rw [complete_data, List.length_flatMap]
  have h1 : ∀ ys : List ℤ,
      (List.map
        (List.length ∘ fun y => (List.range 12).map (fun i => (y, i + 1, countYM recs y (i + 1))))
        ys).sum = 12 * ys.length := by
    intro ys
    induction ys with
    | nil => rfl
    | cons y ys ih =>
      simp only [List.map_cons, List.sum_cons, ih, Function.comp_apply, List.length_map,
        List.length_range, List.length_cons]
      ring
  rw [h1, yearsPresent, length_sortedKeys_eq_card]

theorem mem_complete_data (recs : List (ℤ × ℕ)) (y : ℤ) (m : ℕ)
    (hy : y ∈ yearsPresent recs) (h1 : 1 ≤ m) (h2 : m ≤ 12) :
    (y, m, countYM recs y m) ∈ complete_data recs := by
  rw [complete_data]
  refine List.mem_flatMap.mpr ⟨y, hy, ?_⟩
  refine List.mem_map.mpr ⟨m - 1, List.mem_range.mpr (by omega), ?_⟩
  have hm : m - 1 + 1 = m := by omega
  rw [hm]

theorem pairwise_complete_data (recs : List (ℤ × ℕ)) :
    (complete_data recs).Pairwise
      (fun a b => a.1 < b.1 ∨ (a.1 = b.1 ∧ a.2.1 < b.2.1)) := by
  rw [complete_data]
  have hys : (yearsPresent recs).Pairwise (· < ·) := sorted_sortedKeys _
  revert hys
  generalize yearsPresent recs = ys
  induction ys with
  | nil =>
    intro _
    simp
  | cons y ys ih =>
    intro hys
    rcases List.pairwise_cons.mp hys with ⟨hy, hys2⟩
    rw [List.flatMap_cons, List.pairwise_append]
    refine ⟨?_, ih hys2, ?_⟩
    · refine List.pairwise_map.mpr ?_
      refine (List.pairwise_lt_range 12).imp ?_
      intro i j hij
      exact Or.inr ⟨rfl, show i + 1 < j + 1 by omega⟩
    · intro a ha b hb
      rcases List.mem_map.mp ha with ⟨i, _, rfl⟩
      rcases List.mem_flatMap.mp hb with ⟨y2, hy2, hb2⟩
      rcases List.mem_map.mp hb2 with ⟨j, _, rfl⟩
      exact Or.inl (hy y2 hy2)

theorem complete_data_row_shape (recs : List (ℤ × ℕ)) (r : ℤ × ℕ × ℕ)
    (hr : r ∈ complete_data recs) :
    r.1 ∈ yearsPresent recs ∧ 1 ≤ r.2.1 ∧ r.2.1 ≤ 12 ∧
      r.2.2 = countYM recs r.1 r.2.1 := by
  rw [complete_data] at hr
  rcases List.mem_flatMap.mp hr with ⟨y, hy, hr2⟩
  rcases List.mem_map.mp hr2 with ⟨i, hi, rfl⟩
  have := List.mem_range.mp hi
  refine ⟨hy, ?_, ?_, rfl⟩
  · show 1 ≤ i + 1
    omega
  · show i + 1 ≤ 12
    omega

/-- C2 counterexample: a dataset with one record, in October 2016, spans a
single calendar month, yet the backfilled year-over-year monthly table has
12 rows (January..December 2016) — its row count is not the month-span
length claimed. -/
theorem claim2_counterexample_single_month :
    ((complete_data [((2016 : ℤ), 10)]).length : ℤ) ≠ specMonthSpan [((2016 : ℤ), 10)] := by
  decide

/-- C2 amended: the backfilled monthly pipeline outputs exactly 12 rows per
distinct year present in the data — one per calendar month January..December
of each such year, a zero-order month appearing with count 0 — in
chronological order; each row carries its calendar month's order count, and
the years covered are exactly the years occurring in the data (so the rows
are not the claimed span [M1, Mn]: leading/trailing months of a present
year are backfilled too, and a gap year with no records is skipped). -/
theorem claim2_yearly_backfill_contract :
    (∀ recs : List (ℤ × ℕ),
        (complete_data recs).length = 12 * (recs.map Prod.fst).toFinset.card) ∧
    (∀ (recs : List (ℤ × ℕ)) (y : ℤ) (m : ℕ),
        y ∈ yearsPresent recs → 1 ≤ m → m ≤ 12 →
        (y, m, countYM recs y m) ∈ complete_data recs) ∧
    (∀ recs : List (ℤ × ℕ),
        (complete_data recs).Pairwise
          (fun a b => a.1 < b.1 ∨ (a.1 = b.1 ∧ a.2.1 < b.2.1))) ∧
    (∀ (recs : List (ℤ × ℕ)) (r : ℤ × ℕ × ℕ), r ∈ complete_data recs →
        r.1 ∈ yearsPresent recs ∧ 1 ≤ r.2.1 ∧ r.2.1 ≤ 12 ∧
          r.2.2 = countYM recs r.1 r.2.1) ∧
    (∀ (recs : List (ℤ × ℕ)) (y : ℤ), y ∈ yearsPresent recs ↔ y ∈ recs.map Prod.fst) :=
  ⟨length_complete_data, mem_complete_data, pairwise_complete_data, complete_data_row_shape,
   fun _ y => mem_sortedKeys y _⟩

theorem filtered_df_default (data : List FilterRec) :
    filtered_df data (defaultConfig data) =
      (data.filter (fun r => passDate (minDate data) (maxDate data) r)).filter
        (fun r => passPrice (minPrice data) (maxPrice data) r) := rfl

theorem passDate_default (data : List FilterRec) (r : FilterRec) (hr : r ∈ data)
    (d : ℤ) (hd : r.purchase_date = some d) :
    passDate (minDate data) (maxDate data) r = true := by
  have hmem : d ∈ data.filterMap (fun x => x.purchase_date) :=
    List.mem_filterMap.mpr ⟨r, hr, hd⟩
  simp only [passDate, hd, minDate, maxDate, Bool.and_eq_true, decide_eq_true_eq]
  exact ⟨min?_getD_le _ d 0 hmem, le_max?_getD _ d 0 hmem⟩

theorem passPrice_default (data : List FilterRec) (r : FilterRec) (hr : r ∈ data)
    (p : ℚ) (hp : r.price = some p) :
    passPrice (minPrice data) (maxPrice data) r = true := by
  have hmem : p ∈ data.filterMap (fun x => x.price) :=
    List.mem_filterMap.mpr ⟨r, hr, hp⟩
  simp only [passPrice, hp, minPrice, maxPrice, Bool.and_eq_true, decide_eq_true_eq]
  exact ⟨min?_getD_le _ p 0 hmem, le_max?_getD _ p 0 hmem⟩

/-- C5 counterexample: a one-record dataset whose record has a null price —
the default-configuration filter drops the record (NaN fails both price
bound comparisons), so filtering is not a no-op on it. -/
theorem claim5_counterexample_null_price_dropped :
    filtered_df [⟨some 0, none, none, none, some 5⟩]
        (defaultConfig [⟨some 0, none, none, none, some 5⟩]) ≠
      [⟨some 0, none, none, none, some 5⟩] := by
  decide

/-- C5 amended: the default configuration (full data span, empty category
and state selections, full price range, All Scores) accepts every record
whose purchase timestamp and price are non-null, and rejects every record
with a null purchase timestamp or a null price (NaT/NaN comparisons are
False); hence filtering with it is the identity exactly on datasets whose
records all have those two fields non-null. -/
theorem claim5_default_filter_no_op_on_non_null :
    (∀ (data : List FilterRec) (r : FilterRec), r ∈ data →
        r.purchase_date ≠ none → r.price ≠ none →
        r ∈ filtered_df data (defaultConfig data)) ∧
    (∀ (data : List FilterRec) (r : FilterRec), r ∈ data →
        (r.purchase_date = none ∨ r.price = none) →
        r ∉ filtered_df data (defaultConfig data)) ∧
    (∀ data : List FilterRec,
        (∀ r ∈ data, r.purchase_date ≠ none ∧ r.price ≠ none) →
        filtered_df data (defaultConfig data) = data) := by
  refine ⟨?_, ?_, ?_⟩
  · intro data r hr hdate hprice
    rcases Option.ne_none_iff_exists'.mp hdate with ⟨d, hd⟩
    rcases Option.ne_none_iff_exists'.mp hprice with ⟨p, hp⟩
    rw [filtered_df_default]
    exact List.mem_filter.mpr
      ⟨List.mem_filter.mpr ⟨hr, passDate_default data r hr d hd⟩,
       passPrice_default data r hr p hp⟩
  · intro data r hr hnull hmem
    rw [filtered_df_default] at hmem
    rcases List.mem_filter.mp hmem with ⟨hmem1, hprice⟩
    rcases List.mem_filter.mp hmem1 with ⟨_, hdate⟩
    rcases hnull with h | h
    · rw [passDate, h] at hdate
      exact Bool.false_ne_true hdate
    · rw [passPrice, h] at hprice
      exact Bool.false_ne_true hprice
  · intro data hall
    rw [filtered_df_default]
    have h1 : data.filter (fun r => passDate (minDate data) (maxDate data) r) = data := by
      refine List.filter_eq_self.mpr ?_
      intro r hr
      rcases Option.ne_none_iff_exists'.mp (hall r hr).1 with ⟨d, hd⟩
      exact passDate_default data r hr d hd
    rw [h1]
    refine List.filter_eq_self.mpr ?_
    intro r hr
    rcases Option.ne_none_iff_exists'.mp (hall r hr).2 with ⟨p, hp⟩
    exact passPrice_default data r hr p hp

end EcommerceDashboard
